import Mathlib

/-!
Shallow embedding of the USienaRL experiment core: the `Experiment` control
loop (`setup`, `conduct`, `_train_step`, `_pre_train_step` from
`usienarl/experiment.py`), the abstract `ExplorationPolicy.generate`
(`usienarl/exploration_policy.py`), and the step-completion methods of the
tabular Expected SARSA agent
(`benchmarks/src/tabular_expected_sarsa_agent.py`).

Python floats are modelled by rationals, observations by a small sum type
(Python `None`, an integer for discrete spaces, a vector for continuous
spaces), and the abstract collaborator methods (`_train`, `_inference`,
`_validate`, the model update, the buffer sampling) by explicit function
parameters.
-/

/-- The `SpaceType` enumeration of usienarl (discrete or continuous). -/
inductive SpaceType where
  | discrete
  | continuous
deriving DecidableEq

/-- A Python observation value: `None`, a discrete index, or a continuous vector. -/
inductive Observation where
  | pyNone
  | intObs (n : ℤ)
  | arrObs (v : List ℚ)
deriving DecidableEq

/-- A transition record as stored by `buffer.store(observation_current, action,
reward, observation_next, last_step)`. -/
structure Transition where
  observationCurrent : Observation
  action : ℤ
  reward : ℚ
  observationNext : Observation
  lastStep : Bool
deriving DecidableEq

namespace Experiment

/-- Embedding of `Experiment.setup` (experiment.py lines 61-86).
`envSetup` and `agentSetup` abstract the boolean results of
`self.environment.setup()` and `self.agent.setup()`.  The first component is
the Python return value: `some false` for `return False`, and `none` for
Python `None` — the success-path `return self.model.generate(...)` is
commented out in the source, so the function falls off its end.  The second
component records whether `self.agent.setup()` was invoked. -/
def setup (envSetup agentSetup : Bool) : Option Bool × Bool :=
  if envSetup = false then (some false, false)
  else if agentSetup = false then (some false, true)
  else (none, true)

/-- Modelled from the spec: the driver (`run_experiment`, not included under
src/) calls `setup` and, per the spec, a setup failure is
"propagated up without running `conduct`" — `conduct` is invoked only when
`setup` reports success. -/
def driverConductInvoked (envSetup agentSetup : Bool) : Bool :=
  match (setup envSetup agentSetup).1 with
  | some true => true
  | _ => false

end Experiment

/-- The abstract collaborator behaviours that `Experiment.conduct` consumes:
`_train` (per-interval score and step count), the validation `_inference`
score per interval, the abstract `_validate` predicate (total training
episodes, total training steps, validation score), and the per-test
`_inference` mean score. -/
structure ConductBehaviors where
  trainResult : ℕ → ℚ × ℕ
  validationScore : ℕ → ℚ
  validate : ℕ → ℕ → ℚ → Bool
  testScore : ℕ → ℚ

namespace Experiment

/-- Embedding of the train/validate loop of `Experiment.conduct`
(experiment.py lines 262-281): while `training_episodes_counter <
max_training_episodes`, run one training interval (adding
`training_episodes_per_interval` to the episode counter and the returned step
count to the step counter), run validation, and break when `_validate` holds.
`fuel` bounds the recursion; `conduct` passes `maxTrainingEpisodes + 1`, which
is enough whenever the interval is positive.  Arguments after `fuel`: the
interval index, the episode counter and the step counter.  Returns the final
episode and step counters. -/
def trainValidateLoop (b : ConductBehaviors)
    (maxTrainingEpisodes trainingEpisodesPerInterval : ℕ) :
    ℕ → ℕ → ℕ → ℕ → ℕ × ℕ
  | 0, _, episodesCounter, stepsCounter => (episodesCounter, stepsCounter)
  | fuel + 1, i, episodesCounter, stepsCounter =>
    if episodesCounter < maxTrainingEpisodes then
      if b.validate (episodesCounter + trainingEpisodesPerInterval)
          (stepsCounter + (b.trainResult i).2) (b.validationScore i) then
        (episodesCounter + trainingEpisodesPerInterval,
         stepsCounter + (b.trainResult i).2)
      else
        trainValidateLoop b maxTrainingEpisodes trainingEpisodesPerInterval
          fuel (i + 1) (episodesCounter + trainingEpisodesPerInterval)
          (stepsCounter + (b.trainResult i).2)
    else (episodesCounter, stepsCounter)

/-- `numpy.max` over a list of scores: `none` on the empty list (where numpy
raises), otherwise the maximum element. -/
def numpyMax : List ℚ → Option ℚ
  | [] => none
  | x :: xs => some (xs.foldl max x)

/-- The triple returned by `Experiment.conduct` plus the number of warmup
episodes the pre-training call was asked to run. -/
structure ConductResult where
  finalScore : ℚ
  bestScore : Option ℚ
  trainingEpisodesCounter : ℕ
  warmupEpisodesRun : ℕ
deriving DecidableEq

/-- Embedding of `Experiment.conduct` (experiment.py lines 203-301).
`requirePreTrain` is `self.agent.require_pre_train` and `preTrainEpisodes` is
the `pre_train_episodes` constructor argument stored in
`self._pre_train_episodes`; `_pre_train` is modelled from the spec as running
exactly the number of episodes it is given (its implementations are not under
src/).  After the train/validate loop, `number_of_tests` test trials each
produce one mean score; the source computes
`final_score = sum(scores) / episodes_per_test * number_of_tests` (line 290)
and `best_score = numpy.max(scores)` (line 291).
`validationEpisodesPerInterval` is only forwarded to the abstract `_inference`
and to log messages in the source, so it does not influence the result. -/
def conduct (requirePreTrain : Bool) (preTrainEpisodes : ℕ)
    (b : ConductBehaviors)
    (trainingEpisodesPerInterval validationEpisodesPerInterval
     maxTrainingEpisodes episodesPerTest numberOfTests : ℕ) : ConductResult :=
  let warmupEpisodesRun := if requirePreTrain then preTrainEpisodes else 0
  let counters :=
    trainValidateLoop b maxTrainingEpisodes trainingEpisodesPerInterval
      (maxTrainingEpisodes + 1) 0 0 0
  let scores := (List.range numberOfTests).map b.testScore
  let finalScore := scores.sum / (episodesPerTest : ℚ) * (numberOfTests : ℚ)
  let bestScore := numpyMax scores
  ⟨finalScore, bestScore, counters.1, warmupEpisodesRun⟩

/-- Per-step agent interface as consumed by the step helpers of
`Experiment` (experiment.py lines 137-179): `act_pre_train` and `act_train`
map a current state to an action. -/
structure AgentStepApi (S A : Type) where
  act_pre_train : S → A
  act_train : S → A

/-- Per-step environment interface: `step` maps an action to the next state,
the reward and the completion flag. -/
structure EnvStepApi (S A : Type) where
  step : A → S × ℚ × Bool

/-- Embedding of `Experiment._train_step` (experiment.py lines 137-157): the
action is chosen with `self.agent.act_pre_train`, the environment is stepped,
and the environment is rendered exactly when the `render` flag is set (the
second component records whether `render` was invoked). -/
def train_step {S A : Type} (agent : AgentStepApi S A) (env : EnvStepApi S A)
    (stateCurrent : S) (render : Bool) : (S × ℚ × Bool) × Bool :=
  let action := agent.act_pre_train stateCurrent
  let result := env.step action
  (result, render)

/-- Embedding of `Experiment._pre_train_step` (experiment.py lines 159-179):
the action is chosen with `self.agent.act_pre_train`, the environment is
stepped, and the environment is rendered exactly when the `render` flag is
set. -/
def pre_train_step {S A : Type} (agent : AgentStepApi S A) (env : EnvStepApi S A)
    (stateCurrent : S) (render : Bool) : (S × ℚ × Bool) × Bool :=
  let action := agent.act_pre_train stateCurrent
  let result := env.step action
  (result, render)

end Experiment

/-- The state of `ExplorationPolicy` (exploration_policy.py): the supported
action-space types (fixed per concrete variant) and the agent action space
type and shape recorded by `generate` (both `None` on construction). -/
structure ExplorationPolicy where
  supported_action_space_types : List SpaceType
  agent_action_space_type : Option SpaceType
  agent_action_space_shape : Option (List ℕ)
deriving DecidableEq

namespace ExplorationPolicy

/-- Embedding of `ExplorationPolicy.generate` (exploration_policy.py lines
21-49).  It first stores the given action space type and shape into the
policy's state, then scans `_supported_action_space_types` for a matching
type; on no match it returns failure, otherwise it calls the `_define` hook
and returns success.  The result is the updated policy state, the boolean
return value, and how many times `_define` was invoked. -/
def generate (p : ExplorationPolicy) (t : SpaceType) (shape : List ℕ) :
    ExplorationPolicy × Bool × ℕ :=
  let p1 := { p with agent_action_space_type := some t,
                     agent_action_space_shape := some shape }
  let actionSpaceTypeSupported :=
    p1.supported_action_space_types.any
      (fun spaceType => decide (p1.agent_action_space_type = some spaceType))
  if actionSpaceTypeSupported = false then (p1, false, 0)
  else (p1, true, 1)

end ExplorationPolicy

namespace TabularExpectedSARSAAgent

/-- The next-observation adjustment shared by `complete_step_warmup` and
`complete_step_train` (tabular_expected_sarsa_agent.py lines 112-119 and
134-141): a `None` next observation is a last step and is replaced by `0` in
a discrete observation space and by a zero vector of the observation space
shape otherwise; any other next observation is kept with `last_step = False`. -/
def adjustNextObservation (observationSpaceType : SpaceType)
    (observationSpaceShape : ℕ) (agentObservationNext : Observation) :
    Observation × Bool :=
  match agentObservationNext with
  | Observation.pyNone =>
    if observationSpaceType = SpaceType.discrete then (Observation.intObs 0, true)
    else (Observation.arrObs (List.replicate observationSpaceShape 0), true)
  | o => (o, false)

/-- Embedding of `TabularExpectedSARSAAgent.complete_step_warmup`
(tabular_expected_sarsa_agent.py lines 102-121): adjust the next observation
and store the transition in the model's buffer (modelled as appending to the
list of stored transitions). -/
def complete_step_warmup (observationSpaceType : SpaceType)
    (observationSpaceShape : ℕ) (buffer : List Transition)
    (agentObservationCurrent : Observation) (agentAction : ℤ) (reward : ℚ)
    (agentObservationNext : Observation) : List Transition :=
  let adjusted :=
    adjustNextObservation observationSpaceType observationSpaceShape agentObservationNext
  buffer ++ [⟨agentObservationCurrent, agentAction, reward, adjusted.1, adjusted.2⟩]

/-- An observable effect of `complete_step_train` on its collaborators: a
buffer store, a model update on a sampled batch, a buffer priority update
with the absolute errors returned by the model update, or a summary write at
the absolute train step. -/
inductive AgentEvent where
  | bufferStore (t : Transition)
  | modelUpdate (batch : List Transition)
  | bufferPriorityUpdate (absoluteErrors : List ℚ)
  | addSummary (trainStepAbsolute : ℕ)
deriving DecidableEq

/-- Whether an `AgentEvent` is a buffer store. -/
def AgentEvent.isStore : AgentEvent → Bool
  | AgentEvent.bufferStore _ => true
  | _ => false

/-- Whether an `AgentEvent` is a model update. -/
def AgentEvent.isModelUpdate : AgentEvent → Bool
  | AgentEvent.modelUpdate _ => true
  | _ => false

/-- Whether an `AgentEvent` is a buffer priority update. -/
def AgentEvent.isPriorityUpdate : AgentEvent → Bool
  | AgentEvent.bufferPriorityUpdate _ => true
  | _ => false

/-- Embedding of `TabularExpectedSARSAAgent.complete_step_train`
(tabular_expected_sarsa_agent.py lines 123-149): adjust the next observation,
store the transition in the model's buffer, update the model once on
`self._model.buffer.get(self._batch_size)`, feed the returned absolute errors
back into the buffer once, and write one summary at the absolute step.
`bufferGet` abstracts the prioritized buffer's sampling (its implementation
is not under src/) and `modelUpdateErrors` abstracts the per-sample absolute
errors returned by `self._model.update`.  Returns the buffer contents after
the store and the ordered list of collaborator effects. -/
def complete_step_train (observationSpaceType : SpaceType)
    (observationSpaceShape batchSize : ℕ)
    (bufferGet : List Transition → ℕ → List Transition)
    (modelUpdateErrors : List Transition → List ℚ)
    (buffer : List Transition)
    (agentObservationCurrent : Observation) (agentAction : ℤ) (reward : ℚ)
    (agentObservationNext : Observation) (trainStepAbsolute : ℕ) :
    List Transition × List AgentEvent :=
  let adjusted :=
    adjustNextObservation observationSpaceType observationSpaceShape agentObservationNext
  let t : Transition :=
    ⟨agentObservationCurrent, agentAction, reward, adjusted.1, adjusted.2⟩
  let bufferAfterStore := buffer ++ [t]
  let batch := bufferGet bufferAfterStore batchSize
  let currentAbsoluteErrors := modelUpdateErrors batch
  (bufferAfterStore,
   [AgentEvent.bufferStore t,
    AgentEvent.modelUpdate batch,
    AgentEvent.bufferPriorityUpdate currentAbsoluteErrors,
    AgentEvent.addSummary trainStepAbsolute])

/-- The model of the tabular Expected SARSA agent as far as the
`warmup_episodes` property is concerned. -/
structure ModelApi where
  warmup_episodes : ℕ
deriving DecidableEq

/-- Embedding of the `TabularExpectedSARSAAgent.warmup_episodes` property
(tabular_expected_sarsa_agent.py lines 201-204): it returns the amount of
warmup episodes required by the model. -/
def warmup_episodes (model : ModelApi) : ℕ :=
  model.warmup_episodes

end TabularExpectedSARSAAgent

/-!
Theorems about the claims.
-/

/-- A collaborator behaviour whose validation predicate never fires: every
training interval takes one environment step and every score is zero. -/
def neverValidate : ConductBehaviors :=
  ⟨fun _ => (0, 1), fun _ => 0, fun _ _ _ => false, fun _ => 0⟩

/-- A collaborator behaviour whose validation predicate never fires and whose
test trials score 190, 200 and 195. -/
def threeTestScores : ConductBehaviors :=
  ⟨fun _ => (0, 1), fun _ => 0, fun _ _ _ => false,
   fun i => [(190 : ℚ), 200, 195].getD i 0⟩

/-- Claim C1: with three test trials scoring 190, 200 and 195 and 100
episodes per test, `Experiment.conduct` returns
`finalScore = sum(scores) / episodes_per_test * number_of_tests = 17.55`,
which differs from the arithmetic mean 195 of the three per-trial mean
scores; `bestScore` is their maximum, 200. -/
theorem claim_C1_final_score_formula :
    (Experiment.conduct false 0 threeTestScores 1 1 0 100 3).finalScore = 351 / 20
    ∧ (Experiment.conduct false 0 threeTestScores 1 1 0 100 3).bestScore = some 200
    ∧ (Experiment.conduct false 0 threeTestScores 1 1 0 100 3).finalScore
        ≠ [(190 : ℚ), 200, 195].sum / 3 := by
  refine ⟨?_, ?_, ?_⟩ <;>
    norm_num [Experiment.conduct, Experiment.numpyMax, List.range_succ,
      threeTestScores]

/-- Claim C2: when both the Environment's and the Agent's setup succeed,
`Experiment.setup` returns Python `None` (the success-path return statement
is commented out in the source), not `True`; when either fails it does
return `False`. -/
theorem claim_C2_setup_returns_none_on_success :
    (Experiment.setup true true).1 = none
    ∧ (Experiment.setup false true).1 = some false
    ∧ (Experiment.setup true false).1 = some false := by decide

/-- Claim C5: whenever the Environment's setup fails, `Experiment.setup`
returns `False` without invoking the Agent's setup, and the driver never
invokes `conduct` on that instance. -/
theorem claim_C5_env_setup_failure :
    ∀ agentSetup : Bool,
      Experiment.setup false agentSetup = (some false, false)
      ∧ Experiment.driverConductInvoked false agentSetup = false := by decide

/-- Claim C3 counterexample: an experiment constructed with
`pre_train_episodes = 30` on a pre-train-requiring agent whose model reports
`warmup_episodes = 50` runs 30 warmup episodes, not 50: `conduct` never reads
the model's `warmup_episodes`. -/
theorem claim_C3_counterexample :
    (Experiment.conduct true 30 neverValidate 1 1 0 1 0).warmupEpisodesRun = 30
    ∧ TabularExpectedSARSAAgent.warmup_episodes ⟨50⟩ = 50
    ∧ (30 : ℕ) ≠ 50 := by decide

/-- Claim C3 (amended): for a pre-train-requiring agent, `Experiment.conduct`
runs exactly `pre_train_episodes` warmup episodes — the constructor argument
stored in `self._pre_train_episodes` — whatever the collaborators and the
other configuration parameters are. -/
theorem claim_C3_warmup_episodes_from_constructor
    (preTrainEpisodes : ℕ) (b : ConductBehaviors)
    (interval vInterval maxT eTest nTests : ℕ) :
    (Experiment.conduct true preTrainEpisodes b interval vInterval maxT eTest
        nTests).warmupEpisodesRun = preTrainEpisodes := rfl

/-- Claim C4 counterexample: with `max_training_episodes = 1`,
`training_episodes_per_interval = 2` and a validation predicate that never
fires, `Experiment.conduct` runs 2 training episodes, exceeding the maximum
of 1. -/
theorem claim_C4_counterexample :
    (Experiment.conduct false 0 neverValidate 2 1 1 1 0).trainingEpisodesCounter = 2
    ∧ ¬ (2 ≤ 1) := by decide

/-- The train/validate loop keeps the episode counter below
`max_training_episodes + training_episodes_per_interval` whenever it starts
below that bound: each interval is entered only while the counter is below
the maximum and adds exactly one interval of episodes. -/
theorem trainValidateLoop_counter_lt (b : ConductBehaviors) (maxT interval : ℕ) :
    ∀ fuel i episodesCounter stepsCounter,
      episodesCounter < maxT + interval →
      (Experiment.trainValidateLoop b maxT interval fuel i episodesCounter
          stepsCounter).1 < maxT + interval := by
  intro fuel
  induction fuel with
  | zero =>
    intro i e s h
    simpa [Experiment.trainValidateLoop] using h
  | succ n ih =>
    intro i e s h
    by_cases hc : e < maxT
    · by_cases hv : b.validate (e + interval) (s + (b.trainResult i).2)
          (b.validationScore i) = true
      · simp only [Experiment.trainValidateLoop, hc, if_true, hv]
        omega
      · simp only [Experiment.trainValidateLoop, hc, if_true,
          Bool.not_eq_true] at hv ⊢
        simp only [hv, if_false, Bool.false_eq_true]
        exact ih (i + 1) (e + interval) (s + (b.trainResult i).2) (by omega)
    · simpa [Experiment.trainValidateLoop, hc] using h

/-- Claim C4 (amended): for every configuration with a positive training
interval, the number of training episodes run by `Experiment.conduct` is less
than `max_training_episodes + training_episodes_per_interval`: the loop
re-enters only while the counter is below the maximum, so the final interval
can overshoot the maximum by at most `training_episodes_per_interval - 1`
episodes. -/
theorem claim_C4_training_episode_overshoot_bound
    (requirePreTrain : Bool) (preTrainEpisodes : ℕ) (b : ConductBehaviors)
    (interval vInterval maxT eTest nTests : ℕ) (h : 0 < interval) :
    (Experiment.conduct requirePreTrain preTrainEpisodes b interval vInterval
        maxT eTest nTests).trainingEpisodesCounter < maxT + interval := by
  have hloop := trainValidateLoop_counter_lt b maxT interval (maxT + 1) 0 0 0
    (by omega)
  simpa [Experiment.conduct] using hloop

/-- Claim C4 witness: the overshoot bound instantiated at interval 2 and
maximum 1. -/
theorem claim_C4_witness :
    (0 : ℕ) < 2
    ∧ (Experiment.conduct false 0 neverValidate 2 1 1 1 0).trainingEpisodesCounter
        < 1 + 2 :=
  ⟨by decide,
   claim_C4_training_episode_overshoot_bound false 0 neverValidate 2 1 1 1 0
     (by decide)⟩

/-- Claim C6: a transition completed via `complete_step_warmup` or
`complete_step_train` with a terminal (`None`) next observation is stored
with next observation `0` in a discrete observation space and with a
zero vector of the space's length in a continuous space, and is marked as a
last step; a non-`None` next observation is stored unchanged and not marked
as a last step. -/
theorem claim_C6_terminal_sentinel_substitution
    (shape : ℕ) (buffer : List Transition) (obs : Observation) (act : ℤ)
    (r : ℚ) :
    (TabularExpectedSARSAAgent.complete_step_warmup SpaceType.discrete shape
        buffer obs act r Observation.pyNone
      = buffer ++ [⟨obs, act, r, Observation.intObs 0, true⟩])
    ∧ (TabularExpectedSARSAAgent.complete_step_warmup SpaceType.continuous
        shape buffer obs act r Observation.pyNone
      = buffer ++ [⟨obs, act, r, Observation.arrObs (List.replicate shape 0),
                    true⟩])
    ∧ (∀ (ost : SpaceType) (next : Observation), next ≠ Observation.pyNone →
        TabularExpectedSARSAAgent.complete_step_warmup ost shape buffer obs
            act r next
          = buffer ++ [⟨obs, act, r, next, false⟩])
    ∧ (∀ (batchSize : ℕ)
        (bufferGet : List Transition → ℕ → List Transition)
        (modelUpdateErrors : List Transition → List ℚ) (stepAbs : ℕ),
        (TabularExpectedSARSAAgent.complete_step_train SpaceType.discrete
            shape batchSize bufferGet modelUpdateErrors buffer obs act r
            Observation.pyNone stepAbs).1
          = buffer ++ [⟨obs, act, r, Observation.intObs 0, true⟩])
    ∧ (∀ (batchSize : ℕ)
        (bufferGet : List Transition → ℕ → List Transition)
        (modelUpdateErrors : List Transition → List ℚ) (stepAbs : ℕ),
        (TabularExpectedSARSAAgent.complete_step_train SpaceType.continuous
            shape batchSize bufferGet modelUpdateErrors buffer obs act r
            Observation.pyNone stepAbs).1
          = buffer ++ [⟨obs, act, r,
                        Observation.arrObs (List.replicate shape 0), true⟩])
    ∧ (∀ (ost : SpaceType) (next : Observation), next ≠ Observation.pyNone →
        ∀ (batchSize : ℕ)
          (bufferGet : List Transition → ℕ → List Transition)
          (modelUpdateErrors : List Transition → List ℚ) (stepAbs : ℕ),
        (TabularExpectedSARSAAgent.complete_step_train ost shape batchSize
            bufferGet modelUpdateErrors buffer obs act r next stepAbs).1
          = buffer ++ [⟨obs, act, r, next, false⟩]) := by
  refine ⟨rfl, rfl, ?_, fun _ _ _ _ => rfl, fun _ _ _ _ => rfl, ?_⟩
  · intro ost next h
    cases next with
    | pyNone => exact absurd rfl h
    | intObs n => rfl
    | arrObs v => rfl
  · intro ost next h batchSize bufferGet modelUpdateErrors stepAbs
    cases next with
    | pyNone => exact absurd rfl h
    | intObs n => rfl
    | arrObs v => rfl

/-- Claim C6 witness: a non-terminal next observation in a discrete space is
stored unchanged. -/
theorem claim_C6_witness :
    TabularExpectedSARSAAgent.complete_step_warmup SpaceType.discrete 4 []
        (Observation.intObs 2) 1 (3 / 2) (Observation.intObs 5)
      = [⟨Observation.intObs 2, 1, 3 / 2, Observation.intObs 5, false⟩] :=
  (claim_C6_terminal_sentinel_substitution 4 [] (Observation.intObs 2) 1
      (3 / 2)).2.2.1 SpaceType.discrete (Observation.intObs 5) (by decide)

/-- Claim C7: every call to `complete_step_train` emits exactly one buffer
store (the stored buffer grows by exactly one transition), exactly one model
update — on the batch obtained by `buffer.get(batch_size)` from the
post-store buffer — and exactly one buffer priority update, fed with exactly
the per-sample absolute errors that the model update returned on that
batch. -/
theorem claim_C7_one_store_one_update
    (ost : SpaceType) (shape batchSize : ℕ)
    (bufferGet : List Transition → ℕ → List Transition)
    (modelUpdateErrors : List Transition → List ℚ)
    (buffer : List Transition) (obs : Observation) (act : ℤ) (r : ℚ)
    (next : Observation) (stepAbs : ℕ) :
    ((TabularExpectedSARSAAgent.complete_step_train ost shape batchSize
        bufferGet modelUpdateErrors buffer obs act r next stepAbs).2.filter
          TabularExpectedSARSAAgent.AgentEvent.isStore).length = 1
    ∧ ((TabularExpectedSARSAAgent.complete_step_train ost shape batchSize
        bufferGet modelUpdateErrors buffer obs act r next stepAbs).2.filter
          TabularExpectedSARSAAgent.AgentEvent.isModelUpdate).length = 1
    ∧ ((TabularExpectedSARSAAgent.complete_step_train ost shape batchSize
        bufferGet modelUpdateErrors buffer obs act r next stepAbs).2.filter
          TabularExpectedSARSAAgent.AgentEvent.isPriorityUpdate).length = 1
    ∧ (TabularExpectedSARSAAgent.complete_step_train ost shape batchSize
        bufferGet modelUpdateErrors buffer obs act r next stepAbs).1.length
      = buffer.length + 1
    ∧ (TabularExpectedSARSAAgent.complete_step_train ost shape batchSize
        bufferGet modelUpdateErrors buffer obs act r next stepAbs).2.filter
          TabularExpectedSARSAAgent.AgentEvent.isModelUpdate
      = [TabularExpectedSARSAAgent.AgentEvent.modelUpdate
          (bufferGet (TabularExpectedSARSAAgent.complete_step_train ost shape
              batchSize bufferGet modelUpdateErrors buffer obs act r next
              stepAbs).1 batchSize)]
    ∧ (TabularExpectedSARSAAgent.complete_step_train ost shape batchSize
        bufferGet modelUpdateErrors buffer obs act r next stepAbs).2.filter
          TabularExpectedSARSAAgent.AgentEvent.isPriorityUpdate
      = [TabularExpectedSARSAAgent.AgentEvent.bufferPriorityUpdate
          (modelUpdateErrors
            (bufferGet (TabularExpectedSARSAAgent.complete_step_train ost
                shape batchSize bufferGet modelUpdateErrors buffer obs act r
                next stepAbs).1 batchSize))] := by
  refine ⟨rfl, rfl, rfl, ?_, rfl, rfl⟩
  simp [TabularExpectedSARSAAgent.complete_step_train]

/-- Claim C9: `Experiment._train_step` and `Experiment._pre_train_step` are
extensionally equal: for every agent, environment, current state and render
flag both select the action with the agent's `act_pre_train` and step the
environment identically, whatever the agent's train-mode selection does —
the train-mode selection path is never used by either. -/
theorem claim_C9_train_step_eq_pre_train_step
    (S A : Type) (actPre actTrain1 actTrain2 : S → A) (env : Experiment.EnvStepApi S A)
    (s : S) (render : Bool) :
    Experiment.train_step ⟨actPre, actTrain1⟩ env s render
      = Experiment.pre_train_step ⟨actPre, actTrain2⟩ env s render := rfl

/-- The support scan of `ExplorationPolicy.generate` succeeds exactly when
the given type is a member of the supported list. -/
theorem generate_supported_scan_iff (supported : List SpaceType)
    (t : SpaceType) :
    (supported.any (fun spaceType => decide ((some t : Option SpaceType)
        = some spaceType)) = true)
      ↔ t ∈ supported := by
  simp [List.any_eq_true]

/-- Claim C8: `ExplorationPolicy.generate` returns `False` exactly when the
given action space type is not among the policy's supported action space
types (and `True` otherwise), and it invokes the `_define` hook exactly once
on the success path and never on the failure path. -/
theorem claim_C8_generate_success_iff_supported
    (p : ExplorationPolicy) (t : SpaceType) (shape : List ℕ) :
    ((p.generate t shape).2.1 = false
        ↔ t ∉ p.supported_action_space_types)
    ∧ (p.generate t shape).2.2
        = (if (p.generate t shape).2.1 = true then 1 else 0) := by
  unfold ExplorationPolicy.generate
  by_cases h : t ∈ p.supported_action_space_types
  · have hs := (generate_supported_scan_iff p.supported_action_space_types t).mpr h
    simp only [hs]
    simp [h]
  · have hs : (p.supported_action_space_types.any
        (fun spaceType => decide ((some t : Option SpaceType)
          = some spaceType))) = false := by
      rw [Bool.eq_false_iff]
      intro hc
      exact h ((generate_supported_scan_iff p.supported_action_space_types t).mp hc)
    simp only [hs]
    simp [h]

/-- Claim C10: `ExplorationPolicy.generate` records the given action space
type and shape into the policy state before the support check, so even on the
failure path the stored action space type and shape equal the unsupported
values that were passed in. -/
theorem claim_C10_failure_records_space
    (p : ExplorationPolicy) (t : SpaceType) (shape : List ℕ)
    (h : (p.generate t shape).2.1 = false) :
    (p.generate t shape).1.agent_action_space_type = some t
    ∧ (p.generate t shape).1.agent_action_space_shape = some shape := by
  unfold ExplorationPolicy.generate
  dsimp only
  split <;> exact ⟨rfl, rfl⟩

/-- Claim C10 witness: a policy supporting only discrete action spaces,
handed a continuous action space, fails generation yet stores the continuous
type and the given shape. -/
theorem claim_C10_witness :
    (ExplorationPolicy.generate ⟨[SpaceType.discrete], none, none⟩
        SpaceType.continuous [2]).1.agent_action_space_type
      = some SpaceType.continuous
    ∧ (ExplorationPolicy.generate ⟨[SpaceType.discrete], none, none⟩
        SpaceType.continuous [2]).1.agent_action_space_shape = some [2] :=
  claim_C10_failure_records_space ⟨[SpaceType.discrete], none, none⟩
    SpaceType.continuous [2] (by decide)
